import Mathlib

/-!
Shallow embedding of the core logic of the data-explainer repository:
the analyze-data edge function (response classifier `detectDownloadableContent`,
request adapter around `isGPT5OrNewer`, file-content resolution, usage
normalization and result assembly) and the client-side `handleAnalyze` guard.

Strings from the source are modelled as Lean `String`s; where JavaScript
string/regex operations are involved the functions work on `String.data`
(lists of characters).  JavaScript numbers are modelled as `Nat` (token
counts) and `ℚ` (temperature); `undefined`/missing JSON fields are `Option`.
JavaScript truthiness on these types: a string is falsy iff empty, a number
is falsy iff zero, `undefined`/`null` are falsy (`Option.none`).
-/

/-- The backtick character (code 96), written numerically. -/
def btick : Char := Char.ofNat 96

/-- Left brace character (code 123), written numerically. -/
def lbrace : Char := Char.ofNat 123

/-- Right brace character (code 125), written numerically. -/
def rbrace : Char := Char.ofNat 125

/-- JavaScript `String.prototype.trim` whitespace (the characters relevant to
this code base: tab, LF, VT, FF, CR, space, NBSP, LS, PS, BOM). -/
def isJsWs (c : Char) : Bool :=
  c.toNat = 9 || c.toNat = 10 || c.toNat = 11 || c.toNat = 12 || c.toNat = 13 ||
  c.toNat = 32 || c.toNat = 160 || c.toNat = 8232 || c.toNat = 8233 || c.toNat = 65279

/-- `text.trim()` on the character list: drop whitespace from both ends. -/
def jsTrimL (l : List Char) : List Char :=
  ((l.dropWhile isJsWs).reverse.dropWhile isJsWs).reverse

/-- `text.trim()` as a String → String function. -/
def jsTrim (s : String) : String := String.mk (jsTrimL s.data)

/-- `s.split(sep)` for a single-character separator: always returns at least
one (possibly empty) field. -/
def splitCh (sep : Char) : List Char → List (List Char)
  | [] => [[]]
  | c :: cs =>
    if c = sep then [] :: splitCh sep cs
    else
      match splitCh sep cs with
      | g :: gs => (c :: g) :: gs
      | [] => [[c]]

/-- Does `s` start with `pat` (exact characters)? -/
def strHasPre : List Char → List Char → Bool
  | [], _ => true
  | _ :: _, [] => false
  | p :: ps, c :: cs => c == p && strHasPre ps cs

/-- Does `s` contain `pat` as a contiguous substring
(JavaScript `String.prototype.includes`)? -/
def strHasSub (pat : List Char) : List Char → Bool
  | [] => strHasPre pat []
  | c :: cs => strHasPre pat (c :: cs) || strHasSub pat cs

/-- ASCII lower-casing of a character, for the regex `/i` flag. -/
def lowerChar (c : Char) : Char :=
  if 'A' ≤ c && c ≤ 'Z' then Char.ofNat (c.toNat + 32) else c

/-- If `s` starts with `pat` up to ASCII case, return the remainder. -/
def ciStripStart : List Char → List Char → Option (List Char)
  | [], s => some s
  | _ :: _, [] => none
  | p :: ps, c :: cs => if lowerChar c = lowerChar p then ciStripStart ps cs else none

/-- JavaScript `x || d` for an optional number (0 and absent are falsy). -/
def jsOrNat (x : Option Nat) (d : Nat) : Nat :=
  match x with
  | some n => if n = 0 then d else n
  | none => d

/-- JavaScript `x || d` for an optional rational (0 and absent are falsy). -/
def jsOrRat (x : Option ℚ) (d : ℚ) : ℚ :=
  match x with
  | some q => if q = 0 then d else q
  | none => d

/-- JavaScript `x || d` for an optional string (empty and absent are falsy). -/
def jsOrStr (x : Option String) (d : String) : String :=
  match x with
  | some s => if s = "" then d else s
  | none => d

/-! ### JSON validity (model of JavaScript `JSON.parse` succeeding)

A recursive-descent recognizer for the ECMA-404 JSON grammar used by
`JSON.parse`.  Each parser returns the unconsumed remainder on success.
The value parser is fueled; the fuel supplied at top level (`length + 1`)
is sufficient because every nesting step first consumes at least one
character. -/

/-- JSON whitespace: space, tab, LF, CR. -/
def isJsonWs (c : Char) : Bool :=
  c = ' ' || c = '\t' || c = '\n' || c = '\x0d'

/-- Skip JSON whitespace. -/
def skipWs (s : List Char) : List Char := s.dropWhile isJsonWs

/-- Is `c` a hexadecimal digit? -/
def isHexDigitCh (c : Char) : Bool :=
  c.isDigit || ('a' ≤ c && c ≤ 'f') || ('A' ≤ c && c ≤ 'F')

/-- Single-character JSON string escapes. -/
def isJsonEsc (c : Char) : Bool :=
  c = '"' || c = '\\' || c = '/' || c = 'b' || c = 'f' || c = 'n' || c = 'r' || c = 't'

/-- Consume the rest of a JSON string (after the opening quote). -/
def parseStringRest : List Char → Option (List Char)
  | [] => none
  | '"' :: cs => some cs
  | '\\' :: 'u' :: h1 :: h2 :: h3 :: h4 :: cs =>
    if isHexDigitCh h1 && isHexDigitCh h2 && isHexDigitCh h3 && isHexDigitCh h4 then
      parseStringRest cs
    else none
  | '\\' :: e :: cs => if isJsonEsc e then parseStringRest cs else none
  | c :: cs => if c.toNat < 32 then none else parseStringRest cs

/-- Consume one or more digits, then any further digits. -/
def parseDigits1 : List Char → Option (List Char)
  | c :: cs => if c.isDigit then some (cs.dropWhile Char.isDigit) else none
  | [] => none

/-- Consume a JSON number. -/
def parseNumber (s : List Char) : Option (List Char) :=
  let s1 := match s with
    | '-' :: r => r
    | _ => s
  let ipart : Option (List Char) := match s1 with
    | '0' :: r => some r
    | c :: r => if c.isDigit then some (r.dropWhile Char.isDigit) else none
    | [] => none
  match ipart with
  | none => none
  | some r =>
    let fpart : Option (List Char) := match r with
      | '.' :: t => parseDigits1 t
      | _ => some r
    match fpart with
    | none => none
    | some r3 =>
      match r3 with
      | c :: t =>
        if c = 'e' || c = 'E' then
          match t with
          | d :: u => if d = '+' || d = '-' then parseDigits1 u else parseDigits1 t
          | [] => none
        else some r3
      | [] => some []

/-- Consume the member list and closing brace of a JSON object (after the
opening brace); `first` is true before the first member. -/
def parseObjectBody (pElem : List Char → Option (List Char)) :
    Nat → Bool → List Char → Option (List Char)
  | 0, _, _ => none
  | fuel + 1, first, s =>
    match skipWs s with
    | [] => none
    | c :: r =>
      if first && c = rbrace then some r
      else if c = '"' then
        match parseStringRest r with
        | none => none
        | some r2 =>
          match skipWs r2 with
          | ':' :: r3 =>
            match pElem r3 with
            | none => none
            | some r4 =>
              match r4 with
              | d :: r5 =>
                if d = ',' then parseObjectBody pElem fuel false r5
                else if d = rbrace then some r5
                else none
              | [] => none
          | _ => none
      else none

/-- Consume the element list and closing bracket of a JSON array (after the
opening bracket); `first` is true before the first element. -/
def parseArrayBody (pElem : List Char → Option (List Char)) :
    Nat → Bool → List Char → Option (List Char)
  | 0, _, _ => none
  | fuel + 1, first, s =>
    match (if first then
             match skipWs s with
             | ']' :: r => some (some r)
             | _ => none
           else none) with
    | some res => res
    | none =>
      match pElem s with
      | none => none
      | some r =>
        match r with
        | ',' :: r2 => parseArrayBody pElem fuel false r2
        | ']' :: r2 => some r2
        | _ => none

/-- Consume one JSON value. -/
def parseValue : Nat → List Char → Option (List Char)
  | 0, _ => none
  | fuel + 1, s =>
    match s with
    | [] => none
    | 't' :: 'r' :: 'u' :: 'e' :: cs => some cs
    | 'f' :: 'a' :: 'l' :: 's' :: 'e' :: cs => some cs
    | 'n' :: 'u' :: 'l' :: 'l' :: cs => some cs
    | c :: cs =>
      if c = '"' then parseStringRest cs
      else if c = lbrace then
        parseObjectBody (fun t => (parseValue fuel (skipWs t)).map skipWs)
          (cs.length + 1) true cs
      else if c = '[' then
        parseArrayBody (fun t => (parseValue fuel (skipWs t)).map skipWs)
          (cs.length + 1) true cs
      else parseNumber s

/-- Does `JSON.parse` succeed on this text? (`ws value ws`, all input consumed.) -/
def jsonParses (s : List Char) : Bool :=
  match (parseValue (s.length + 1) (skipWs s)).map skipWs with
  | some [] => true
  | _ => false

/-! ### Response Classifier (`detectDownloadableContent`)

Faithful embedding of the content-sniffing routine.  The fenced-block
regexes `/```tag\n([\s\S]*?)\n```/i` are embedded by their matching
semantics: the match starts at the leftmost occurrence of the opener
"```tag\n" (ASCII-case-insensitively), and the lazy capture group is the
text up to the first subsequent occurrence of "\n```"; if the leftmost
opener has no subsequent close the whole match fails (no later opener can
have a close either, since any close for it would also serve the first).

The CSV-like regex `/^[^,\n]+(?:,[^,\n]+)*\n(?:[^,\n]*(?:,[^,\n]*)*\n?)+$/m`
with the multiline flag matches the (trimmed) text iff some line other than
the last consists of one or more non-empty comma-separated fields: with
`/m`, `^` anchors at every line start: the first alternative-free part must
consume exactly one whole line of that shape plus its newline, and the
second part `(?:[^,\n]*(?:,[^,\n]*)*\n?)+$` matches any remaining suffix
(each of its iterations accepts an arbitrary newline-free chunk and an
optional newline, and `$` holds at any line end).  That derived semantics
is what `csvLikePatternTest` computes. -/

/-- A detected downloadable artifact (the non-null result object of
`detectDownloadableContent`; `hasFile: true` is implicit in `some`). -/
structure Artifact where
  content : String
  filename : String
  extension : String
  mimeType : String
  type : String
deriving DecidableEq

/-- One entry of the `patterns` array: its language tags (the regex
alternatives) and the extension/mimeType mapping. -/
structure FencePat where
  type : String
  tags : List (List Char)
  extension : String
  mimeType : String
deriving DecidableEq

/-- The `patterns` array of `detectDownloadableContent`, in source order. -/
def patterns : List FencePat :=
  [ ⟨"csv", ["csv".data], "csv", "text/csv"⟩,
    ⟨"json", ["json".data], "json", "application/json"⟩,
    ⟨"xml", ["xml".data], "xml", "application/xml"⟩,
    ⟨"txt", ["txt".data, "text".data], "txt", "text/plain"⟩,
    ⟨"sql", ["sql".data], "sql", "text/plain"⟩,
    ⟨"python", ["python".data], "py", "text/plain"⟩,
    ⟨"javascript", ["javascript".data, "js".data], "js", "text/plain"⟩ ]

/-- The opening fence for a language tag: three backticks, the tag, newline. -/
def fenceOpener (tag : List Char) : List Char :=
  btick :: btick :: btick :: (tag ++ ['\n'])

/-- The closing fence: newline then three backticks. -/
def fenceClose : List Char := ['\n', btick, btick, btick]

/-- The capture up to the first occurrence of the closing fence. -/
def findCloseCapture : List Char → Option (List Char)
  | [] => none
  | c :: cs =>
    if c = '\n' && strHasPre [btick, btick, btick] cs then some []
    else (findCloseCapture cs).map (c :: ·)

/-- Scan for the leftmost opener among the pattern's tag alternatives and
return the lazy capture of `/```tag\n([\s\S]*?)\n```/i`, if any. -/
def findFenceCapture (tags : List (List Char)) : List Char → Option (List Char)
  | [] => none
  | c :: cs =>
    match tags.findSome? (fun t => ciStripStart (fenceOpener t) (c :: cs)) with
    | some rest => findCloseCapture rest
    | none => findFenceCapture tags cs

/-- The `for (const pattern of patterns)` loop: first pattern whose regex
matches with a truthy (non-empty) capture group wins. -/
def codeBlockScan : List FencePat → List Char → Option Artifact
  | [], _ => none
  | p :: ps, s =>
    match findFenceCapture p.tags s with
    | some cap =>
      if cap.isEmpty then codeBlockScan ps s
      else some { content := String.mk (jsTrimL cap),
                  filename := "analysis_result." ++ p.extension,
                  extension := p.extension,
                  mimeType := p.mimeType,
                  type := p.type }
    | none => codeBlockScan ps s

/-- Does a line consist of one or more non-empty comma-separated fields
(i.e. match `[^,\n]+(?:,[^,\n]+)*` in full)?  Lines produced by splitting
on newline contain no newline, so only the comma structure matters. -/
def wellFormedCsvLine (l : List Char) : Bool :=
  (splitCh ',' l).all (fun seg => !seg.isEmpty)

/-- Derived semantics of `csvLikePattern.test` (see the section comment):
some line other than the last is a well-formed comma-separated record. -/
def csvLikePatternTest (t : List Char) : Bool :=
  ((splitCh '\n' t).dropLast).any wellFormedCsvLine

/-- Rule 1 of `detectDownloadableContent`: the CSV-like heuristic. -/
def csvRule (text : String) : Option Artifact :=
  let t := jsTrimL text.data
  if csvLikePatternTest t && strHasSub [','] text.data then
    let lines := splitCh '\n' t
    if lines.length > 1 && (lines.headD []).contains ',' then
      some { content := String.mk t,
             filename := "analysis_result.csv",
             extension := "csv",
             mimeType := "text/csv",
             type := "csv" }
    else none
  else none

/-- The bare-JSON shape test of rule 3: trimmed text starts with a left
brace and ends with a right brace (or starts `[` and ends `]`) and
`JSON.parse` succeeds on it. -/
def bareJsonShaped (text : String) : Bool :=
  let t := jsTrimL text.data
  ((t.headD ' ' = lbrace && t.getLastD ' ' = rbrace) ||
   (t.headD ' ' = '[' && t.getLastD ' ' = ']')) &&
  !t.isEmpty && jsonParses t

/-- Rule 3 of `detectDownloadableContent`: bare JSON content. -/
def bareJsonRule (text : String) : Option Artifact :=
  if bareJsonShaped text then
    some { content := String.mk (jsTrimL text.data),
           filename := "analysis_result.json",
           extension := "json",
           mimeType := "application/json",
           type := "json" }
  else none

/-- `detectDownloadableContent`: empty text yields null; otherwise the
CSV-like heuristic, then the fenced code-block patterns, then bare JSON;
first match wins, else null. -/
def detectDownloadableContent (text : String) : Option Artifact :=
  if text = "" then none
  else
    match csvRule text with
    | some a => some a
    | none =>
      match codeBlockScan patterns text.data with
      | some a => some a
      | none => bareJsonRule text

/-! ### Request Adapter (model-parameter branching) -/

/-- The outbound OpenAI request body: absent fields are `none`. -/
structure OpenAIRequestBody where
  model : String
  fullPrompt : String
  max_tokens : Option Nat
  max_completion_tokens : Option Nat
  temperature : Option ℚ
deriving DecidableEq

/-- `(model || '').includes('gpt-5') || ... .includes('o3') || ...
.includes('o4') || ... .includes('gpt-4.1')`. -/
def isGPT5OrNewer (model : Option String) : Bool :=
  let m := (jsOrStr model "").data
  strHasSub "gpt-5".data m || strHasSub "o3".data m ||
  strHasSub "o4".data m || strHasSub "gpt-4.1".data m

/-- Build `openAIRequestBody`: reasoning-family models get
`max_completion_tokens = max(maxTokens || 2000, 1000)` and no temperature;
every other model gets `max_tokens = maxTokens || 2000` and
`temperature = temperature || 0.7`. -/
def adaptRequest (model : Option String) (temperature : Option ℚ)
    (maxTokens : Option Nat) (fullPrompt : String) : OpenAIRequestBody :=
  let base : OpenAIRequestBody :=
    { model := jsOrStr model "gpt-5-2025-08-07",
      fullPrompt := fullPrompt,
      max_tokens := none,
      max_completion_tokens := none,
      temperature := none }
  if isGPT5OrNewer model then
    { base with max_completion_tokens := some (max (jsOrNat maxTokens 2000) 1000) }
  else
    { base with max_tokens := some (jsOrNat maxTokens 2000),
                temperature := some (jsOrRat temperature (7/10)) }

/-! ### File content resolution and the serve pipeline up to the provider call

Storage is modelled as a pure map from full path to optional file text
(`none` is a download error/not-found).  The supabase client returns
data xor error, which `Option` captures. -/

/-- Path of a file in the caller-scoped farm-data folder. -/
def farmPath (uid name : String) : String := uid ++ "/farm-data/" ++ name

/-- Path of a file in the caller-scoped certification-requirements folder. -/
def certPath (uid name : String) : String :=
  uid ++ "/certification-requirements/" ++ name

/-- Per-file resolution: try the farm-data path, and only on error the
certification-requirements path. -/
def resolveFile (storage : String → Option String) (uid name : String) :
    Option String :=
  match storage (farmPath uid name) with
  | some text => some text
  | none => storage (certPath uid name)

/-- The delimiter-prefixed section appended to `fileContents` per file. -/
def fileSection (name text : String) : String :=
  "\n\n=== File: " ++ name ++ " ===\n" ++ text

/-- The file-reading loop: in caller order, append a section per resolvable
file and silently skip (log only) files that resolve in neither location. -/
def readFileContents (storage : String → Option String) (uid : String)
    (selectedFiles : List String) : String :=
  selectedFiles.foldl (fun acc fileName =>
    match resolveFile storage uid fileName with
    | some text => acc ++ fileSection fileName text
    | none => acc) ""

/-- The composite prompt sent as the user message. -/
def buildFullPrompt (prompt fileContents : String) : String :=
  prompt ++ "\n\nHere are the contents of the selected data files:\n" ++
  fileContents ++ "\n\nPlease analyze this data according to the prompt above."

/-- Failures of the serve pipeline modelled here. -/
inductive ServeError where
  | NoReadableContent
deriving DecidableEq

/-- The serve pipeline from file resolution up to (but excluding) the
provider HTTP call: if no file contents could be read the request is
rejected with status 400 before any outbound request is constructed;
otherwise the outbound request body is built. -/
def serveOutbound (storage : String → Option String) (uid : String)
    (selectedFiles : List String) (prompt : String) (temperature : Option ℚ)
    (maxTokens : Option Nat) (model : Option String) :
    Except ServeError OpenAIRequestBody :=
  let fileContents := readFileContents storage uid selectedFiles
  if fileContents = "" then Except.error ServeError.NoReadableContent
  else Except.ok (adaptRequest model temperature maxTokens
    (buildFullPrompt prompt fileContents))

/-- The body sent by the client to the analyze-data function. -/
structure InvokeBody where
  selectedFiles : List String
  prompt : String
  temperature : Option ℚ
  maxTokens : Option Nat
deriving DecidableEq

/-- The client-side `handleAnalyze` guard: reject an empty file selection,
then a blank (whitespace-only) prompt, before invoking the edge function;
`none` means no invocation happens. -/
def handleAnalyze (selectedFiles : List String) (prompt : String)
    (temperature : Option ℚ) (maxTokens : Option Nat) : Option InvokeBody :=
  if selectedFiles.length = 0 then none
  else if jsTrim prompt = "" then none
  else some ⟨selectedFiles, prompt, temperature, maxTokens⟩

/-! ### Usage normalization and result assembly -/

/-- The nested `completion_tokens_details` sub-object. -/
structure CompletionTokensDetails where
  reasoning_tokens : Option Nat
deriving DecidableEq

/-- The raw provider `usage` object (absent fields are `none`). -/
structure RawUsage where
  input_tokens : Option Nat
  prompt_tokens : Option Nat
  output_tokens : Option Nat
  completion_tokens : Option Nat
  reasoning_tokens : Option Nat
  completion_tokens_details : Option CompletionTokensDetails
  total_tokens : Option Nat
deriving DecidableEq

/-- The normalized token statistics of the result (the wall-clock
`processingTime` field is outside this model). -/
structure Statistics where
  inputTokens : Nat
  outputTokens : Nat
  reasoningTokens : Nat
  totalTokens : Nat
deriving DecidableEq

/-- Normalization with `??` (nullish) fallbacks:
`input_tokens ?? prompt_tokens ?? 0`, `output_tokens ?? completion_tokens
?? 0`, `reasoning_tokens ?? completion_tokens_details?.reasoning_tokens ?? 0`,
`total_tokens ?? (inputTokens + outputTokens)`. -/
def normalizeUsage (usage : RawUsage) : Statistics :=
  let inputTokens := usage.input_tokens.getD (usage.prompt_tokens.getD 0)
  let outputTokens := usage.output_tokens.getD (usage.completion_tokens.getD 0)
  let reasoningTokens := usage.reasoning_tokens.getD
    ((usage.completion_tokens_details.bind
      CompletionTokensDetails.reasoning_tokens).getD 0)
  let totalTokens := usage.total_tokens.getD (inputTokens + outputTokens)
  { inputTokens := inputTokens, outputTokens := outputTokens,
    reasoningTokens := reasoningTokens, totalTokens := totalTokens }

/-- Opening literal of the reasoning diagnostic. -/
def rdPartA : String := "The model completed internal reasoning using "

/-- Middle literal of the reasoning diagnostic. -/
def rdPartB : String :=
  " tokens but produced no visible output. This suggests the max_completion_tokens ("

/-- Final literal of the reasoning diagnostic. -/
def rdPartC : String :=
  ") may be too low for this complex analysis. Try increasing to 4000+ tokens or simplifying your prompt."

/-- The diagnostic substituted when reasoning tokens were used but no text
came back; it names the configured max-output value between `rdPartB` and
`rdPartC`. -/
def reasoningDiagnostic (reasoningTokens capValue : Nat) : String :=
  rdPartA ++ toString reasoningTokens ++ rdPartB ++ toString capValue ++ rdPartC

/-- The diagnostic substituted when output tokens were used (no reasoning
tokens) but no text came back. -/
def genericDiagnostic : String :=
  "The model processed your request but returned empty content. Try rephrasing your prompt or increasing the max tokens setting."

/-- The empty-content check: if the extracted text is empty while reasoning
or output tokens are nonzero, substitute a diagnostic message. -/
def emptyTextSubstitution (generatedText : String)
    (reasoningTokens outputTokens : Nat) (maxTokens : Option Nat) : String :=
  if generatedText = "" ∧ (0 < reasoningTokens ∨ 0 < outputTokens) then
    if 0 < reasoningTokens then
      reasoningDiagnostic reasoningTokens (jsOrNat maxTokens 2000)
    else genericDiagnostic
  else generatedText

/-- The final result object returned to the caller. -/
structure AnalysisResult where
  generatedText : String
  fileInfo : Option Artifact
  statistics : Statistics
deriving DecidableEq

/-- Result assembly after the provider call: normalize usage, apply the
empty-text substitution, run the classifier on the (substituted) text, and
report the trimmed text together with the statistics. -/
def assembleResult (generatedText : String) (usage : RawUsage)
    (maxTokens : Option Nat) : AnalysisResult :=
  let stats := normalizeUsage usage
  let g := emptyTextSubstitution generatedText stats.reasoningTokens
    stats.outputTokens maxTokens
  { generatedText := jsTrim g,
    fileInfo := detectDownloadableContent g,
    statistics := stats }

/-- The contribution of one selected file to `fileContents`. -/
def sectionOpt (storage : String → Option String) (uid name : String) : String :=
  match resolveFile storage uid name with
  | some text => fileSection name text
  | none => ""

/-- Concatenation of a list of strings, in order. -/
def strConcat : List String → String
  | [] => ""
  | s :: rest => s ++ strConcat rest

/-- A concrete storage map used in concrete instances: `b.csv` and `a.csv`
exist in the farm-data folder of user `u`; `a.csv` also exists (with
different content) in the certification-requirements folder. -/
def storageZero : String → Option String := fun p =>
  if p = "u/farm-data/b.csv" then some "B"
  else if p = "u/farm-data/a.csv" then some "A"
  else if p = "u/certification-requirements/a.csv" then some "A2"
  else if p = "u/certification-requirements/c.csv" then some "C2"
  else none

/-- Modelled from the claim's wording, not from the source (for comparison
with `csvRule`): "the full trimmed text consists of one or more
newline-separated lines each containing at least one comma, the text
contains at least one comma, and there are at least 2 lines". -/
def csvClaimedMatch (text : String) : Bool :=
  let lines := splitCh '\n' (jsTrimL text.data)
  lines.all (fun l => l.contains ',') && strHasSub [','] text.data &&
    lines.length ≥ 2

/-! ### Basic string lemmas -/

theorem strData_append (a b : String) : (a ++ b).data = a.data ++ b.data := by
  cases a; cases b; rfl

theorem strAppend_empty (a : String) : a ++ "" = a := by
  cases a with
  | mk d => show String.mk (d ++ []) = String.mk d
            rw [List.append_nil]

theorem strEmpty_append (a : String) : "" ++ a = a := by
  cases a with
  | mk d => show String.mk ([] ++ d) = String.mk d
            rw [List.nil_append]

theorem strAppend_assoc (a b c : String) : (a ++ b) ++ c = a ++ (b ++ c) := by
  cases a; cases b; cases c
  show String.mk _ = String.mk _
  rw [List.append_assoc]

theorem strMk_data (s : String) : String.mk s.data = s := by cases s; rfl

theorem strMk_eq_empty {l : List Char} : String.mk l = "" ↔ l = [] := by
  constructor
  · intro h
    have h2 := congrArg String.data h
    exact h2
  · intro h
    rw [h]

theorem strAppend_eq_empty {a b : String} : a ++ b = "" ↔ a = "" ∧ b = "" := by
  cases a with
  | mk d1 =>
    cases b with
    | mk d2 =>
      rw [show String.mk d1 ++ String.mk d2 = String.mk (d1 ++ d2) from rfl]
      rw [strMk_eq_empty, strMk_eq_empty, strMk_eq_empty, List.append_eq_nil]

theorem strHasPre_self_append (pat y : List Char) :
    strHasPre pat (pat ++ y) = true := by
  induction pat with
  | nil => rfl
  | cons p ps ih => simp [strHasPre, ih]

theorem strHasSub_mid (pat x y : List Char) :
    strHasSub pat (x ++ (pat ++ y)) = true := by
  induction x with
  | nil =>
    cases hp : pat ++ y with
    | nil => simp [strHasSub]
             cases pat with
             | nil => rfl
             | cons p ps => simp at hp
    | cons c cs => simp [strHasSub, ← hp, strHasPre_self_append]
  | cons c cs ih => simp [strHasSub, ih]

/-! ### Lemmas about file-content concatenation -/

theorem fileSection_data (n t : String) :
    (fileSection n t).data =
      '\n' :: ('\n' :: ("=== File: ".data ++ (n.data ++ (" ===\n".data ++ t.data)))) := by
  simp only [fileSection, strData_append, List.append_assoc]
  rfl

theorem fileSection_ne_empty (n t : String) : fileSection n t ≠ "" := by
  intro h
  have h2 := congrArg String.data h
  rw [fileSection_data] at h2
  simp at h2

theorem readFileContents_foldl (storage : String → Option String) (uid : String) :
    ∀ (l : List String) (acc : String),
      l.foldl (fun acc fileName =>
        match resolveFile storage uid fileName with
        | some text => acc ++ fileSection fileName text
        | none => acc) acc
      = acc ++ strConcat (l.map (sectionOpt storage uid)) := by
  intro l
  induction l with
  | nil => intro acc
           simp [strConcat, strAppend_empty]
  | cons n rest ih =>
    intro acc
    simp only [List.foldl_cons, List.map_cons, strConcat, ih]
    cases hres : resolveFile storage uid n with
    | some t => simp [hres, sectionOpt, strAppend_assoc]
    | none => simp [hres, sectionOpt, strEmpty_append]

theorem readFileContents_eq_concat (storage : String → Option String) (uid : String)
    (l : List String) :
    readFileContents storage uid l = strConcat (l.map (sectionOpt storage uid)) := by
  rw [readFileContents, readFileContents_foldl, strEmpty_append]

theorem strConcat_eq_empty {L : List String} :
    strConcat L = "" ↔ ∀ s ∈ L, s = "" := by
  induction L with
  | nil => simp [strConcat]
  | cons s rest ih => simp [strConcat, strAppend_eq_empty, ih]

theorem sectionOpt_eq_empty (storage : String → Option String) (uid name : String) :
    sectionOpt storage uid name = "" ↔ resolveFile storage uid name = none := by
  cases hres : resolveFile storage uid name with
  | some t => simp [sectionOpt, hres, fileSection_ne_empty]
  | none => simp [sectionOpt, hres]

theorem readFileContents_eq_empty (storage : String → Option String) (uid : String)
    (l : List String) :
    readFileContents storage uid l = "" ↔
      ∀ name ∈ l, resolveFile storage uid name = none := by
  rw [readFileContents_eq_concat, strConcat_eq_empty]
  constructor
  · intro h name hn
    rw [← sectionOpt_eq_empty storage uid name]
    exact h _ (List.mem_map_of_mem _ hn)
  · intro h s hs
    obtain ⟨name, hn, rfl⟩ := List.mem_map.mp hs
    rw [sectionOpt_eq_empty]
    exact h name hn

/-! ### Lemmas about the diagnostic message and trimming -/

theorem jsTrimL_of_ends {l : List Char} (h1 : l.dropWhile isJsWs = l)
    (h2 : l.reverse.dropWhile isJsWs = l.reverse) : jsTrimL l = l := by
  rw [jsTrimL, h1, h2, List.reverse_reverse]

theorem rdPartA_data :
    rdPartA.data = 'T' :: "he model completed internal reasoning using ".data := by
  decide

theorem rdPartC_data :
    rdPartC.data =
      ") may be too low for this complex analysis. Try increasing to 4000+ tokens or simplifying your prompt".data
      ++ ['.'] := by
  decide

theorem reasoningDiagnostic_data (rt cap : Nat) :
    (reasoningDiagnostic rt cap).data =
      rdPartA.data ++ ((toString rt).data ++
        (rdPartB.data ++ ((toString cap).data ++ rdPartC.data))) := by
  simp only [reasoningDiagnostic, strData_append, List.append_assoc]

theorem reasoningDiagnostic_trim (rt cap : Nat) :
    jsTrimL (reasoningDiagnostic rt cap).data = (reasoningDiagnostic rt cap).data := by
  apply jsTrimL_of_ends
  · rw [reasoningDiagnostic_data, rdPartA_data, List.cons_append,
      List.dropWhile_cons_of_neg]
    decide
  · rw [reasoningDiagnostic_data, rdPartC_data]
    simp only [List.reverse_append, List.reverse_cons, List.reverse_nil,
      List.nil_append, List.append_assoc, List.cons_append]
    rw [List.dropWhile_cons_of_neg]
    decide

theorem reasoningDiagnostic_ne_empty (rt cap : Nat) :
    reasoningDiagnostic rt cap ≠ "" := by
  intro h
  have h2 := congrArg String.data h
  rw [reasoningDiagnostic_data, rdPartA_data] at h2
  simp at h2

theorem reasoningDiagnostic_names_cap (rt cap : Nat) :
    strHasSub (toString cap).data (reasoningDiagnostic rt cap).data = true := by
  have h := strHasSub_mid (toString cap).data
    (rdPartA.data ++ ((toString rt).data ++ rdPartB.data)) rdPartC.data
  rw [reasoningDiagnostic_data]
  simpa [List.append_assoc] using h

/-! ### Generic lemma about the fenced-block scan -/

theorem codeBlockScan_eq_findSome (ps : List FencePat) (s : List Char) :
    codeBlockScan ps s = ps.findSome? (fun p =>
      match findFenceCapture p.tags s with
      | some cap =>
        if cap.isEmpty then none
        else some { content := String.mk (jsTrimL cap),
                    filename := "analysis_result." ++ p.extension,
                    extension := p.extension,
                    mimeType := p.mimeType,
                    type := p.type }
      | none => none) := by
  induction ps with
  | nil => rfl
  | cons p ps ih =>
    rw [List.findSome?_cons]
    cases hfc : findFenceCapture p.tags s with
    | some cap =>
      by_cases hc : cap.isEmpty
      · simp [codeBlockScan, hfc, hc, ih]
      · simp [codeBlockScan, hfc, hc, ih]
    | none => simp [codeBlockScan, hfc, ih]

/-! ### Claim theorems -/

/-- C2 (amended): the Request Adapter classifies every model string into
exactly one of two classes via `isGPT5OrNewer`: in the REASONING case the
request omits temperature and carries `max_completion_tokens =
max(maxTokens || 2000, 1000)`; in the LEGACY case (including unknown model
strings and the absent model, which fail open to LEGACY) it carries
`temperature = temperature || 0.7` (so the default also replaces an
explicit 0) and `max_tokens = maxTokens || 2000`, which equals the
requested value exactly whenever it is nonzero — no floor applied. -/
theorem C2_request_adapter (model : Option String) (temperature : Option ℚ)
    (maxTokens : Option Nat) (fullPrompt : String) :
    (isGPT5OrNewer model = true →
      (adaptRequest model temperature maxTokens fullPrompt).temperature = none ∧
      (adaptRequest model temperature maxTokens fullPrompt).max_completion_tokens =
        some (max (jsOrNat maxTokens 2000) 1000) ∧
      (adaptRequest model temperature maxTokens fullPrompt).max_tokens = none) ∧
    (isGPT5OrNewer model = false →
      (adaptRequest model temperature maxTokens fullPrompt).temperature =
        some (jsOrRat temperature ((7 : ℚ)/10)) ∧
      (adaptRequest model temperature maxTokens fullPrompt).max_tokens =
        some (jsOrNat maxTokens 2000) ∧
      (adaptRequest model temperature maxTokens fullPrompt).max_completion_tokens =
        none ∧
      ∀ n, maxTokens = some n → n ≠ 0 →
        (adaptRequest model temperature maxTokens fullPrompt).max_tokens = some n) ∧
    (isGPT5OrNewer (some "gpt-5-2025-08-07") = true ∧
     isGPT5OrNewer (some "o3-mini") = true ∧
     isGPT5OrNewer (some "o4-mini") = true ∧
     isGPT5OrNewer (some "gpt-4.1-2025-04-14") = true ∧
     isGPT5OrNewer (some "gpt-4o") = false ∧
     isGPT5OrNewer (some "some-unlisted-model") = false ∧
     isGPT5OrNewer none = false) := by
  refine ⟨?_, ?_, by decide⟩
  · intro h
    refine ⟨?_, ?_, ?_⟩ <;> simp [adaptRequest, h]
  · intro h
    refine ⟨?_, ?_, ?_, ?_⟩
    · simp [adaptRequest, h]
    · simp [adaptRequest, h]
    · simp [adaptRequest, h]
    · intro n hn hn0
      simp [adaptRequest, h, jsOrNat, hn, hn0]

/-- C2 witness: the amended theorem applied to the LEGACY model `gpt-4o`. -/
theorem C2_witness :
    isGPT5OrNewer (some "gpt-4o") = false ∧
    (adaptRequest (some "gpt-4o") (some (1/2 : ℚ)) (some 1500) "p").temperature =
      some (jsOrRat (some (1/2 : ℚ)) ((7 : ℚ)/10)) ∧
    (adaptRequest (some "gpt-4o") (some (1/2 : ℚ)) (some 1500) "p").max_tokens =
      some 1500 := by
  have h := C2_request_adapter (some "gpt-4o") (some (1/2 : ℚ)) (some 1500) "p"
  have hleg : isGPT5OrNewer (some "gpt-4o") = false := by decide
  exact ⟨hleg, (h.2.1 hleg).1, (h.2.1 hleg).2.2.2 1500 rfl (by decide)⟩

/-- C2 counterexample: the claim as stated says the LEGACY request carries
`temperature = request.temperature`; for an explicit in-range temperature
of 0 the code substitutes the default 0.7 instead. -/
theorem C2_counterexample :
    isGPT5OrNewer (some "gpt-4o") = false ∧
    (adaptRequest (some "gpt-4o") (some 0) (some 1500) "p").temperature =
      some ((7 : ℚ)/10) ∧
    ((7 : ℚ)/10 ≠ 0) := by
  refine ⟨by decide, ?_, by norm_num⟩
  simp [adaptRequest, jsOrRat, show isGPT5OrNewer (some "gpt-4o") = false from by decide]

/-- C5: usage normalization prefers `input_tokens`/`output_tokens`, falls
back to `prompt_tokens`/`completion_tokens` (else 0); reasoning tokens come
from the top-level field, else the nested `completion_tokens_details`
field, else 0; total comes from the provider-reported `total_tokens`, else
inputTokens + outputTokens; in particular `{prompt_tokens:10,
completion_tokens:5}` normalizes to totalTokens = 15. -/
theorem C5_usage_normalization :
    (∀ (u : RawUsage) (n : Nat), u.input_tokens = some n →
      (normalizeUsage u).inputTokens = n) ∧
    (∀ (u : RawUsage) (n : Nat), u.input_tokens = none → u.prompt_tokens = some n →
      (normalizeUsage u).inputTokens = n) ∧
    (∀ (u : RawUsage), u.input_tokens = none → u.prompt_tokens = none →
      (normalizeUsage u).inputTokens = 0) ∧
    (∀ (u : RawUsage) (n : Nat), u.output_tokens = some n →
      (normalizeUsage u).outputTokens = n) ∧
    (∀ (u : RawUsage) (n : Nat), u.output_tokens = none →
      u.completion_tokens = some n → (normalizeUsage u).outputTokens = n) ∧
    (∀ (u : RawUsage), u.output_tokens = none → u.completion_tokens = none →
      (normalizeUsage u).outputTokens = 0) ∧
    (∀ (u : RawUsage) (n : Nat), u.reasoning_tokens = some n →
      (normalizeUsage u).reasoningTokens = n) ∧
    (∀ (u : RawUsage) (d : CompletionTokensDetails) (n : Nat),
      u.reasoning_tokens = none → u.completion_tokens_details = some d →
      d.reasoning_tokens = some n → (normalizeUsage u).reasoningTokens = n) ∧
    (∀ (u : RawUsage), u.reasoning_tokens = none →
      u.completion_tokens_details.bind CompletionTokensDetails.reasoning_tokens = none →
      (normalizeUsage u).reasoningTokens = 0) ∧
    (∀ (u : RawUsage) (n : Nat), u.total_tokens = some n →
      (normalizeUsage u).totalTokens = n) ∧
    (∀ (u : RawUsage), u.total_tokens = none →
      (normalizeUsage u).totalTokens =
        (normalizeUsage u).inputTokens + (normalizeUsage u).outputTokens) ∧
    (normalizeUsage ⟨none, some 10, none, some 5, none, none, none⟩).totalTokens = 15 := by
  refine ⟨?_, ?_, ?_, ?_, ?_, ?_, ?_, ?_, ?_, ?_, ?_, by decide⟩
  · intro u n h; simp [normalizeUsage, h]
  · intro u n h1 h2; simp [normalizeUsage, h1, h2]
  · intro u h1 h2; simp [normalizeUsage, h1, h2]
  · intro u n h; simp [normalizeUsage, h]
  · intro u n h1 h2; simp [normalizeUsage, h1, h2]
  · intro u h1 h2; simp [normalizeUsage, h1, h2]
  · intro u n h; simp [normalizeUsage, h]
  · intro u d n h1 h2 h3; simp [normalizeUsage, h1, h2, h3]
  · intro u h1 h2; simp [normalizeUsage, h1, h2]
  · intro u n h; simp [normalizeUsage, h]
  · intro u h; simp [normalizeUsage, h]

/-- C5 witness: normalization at the concrete raw usage of the claim. -/
theorem C5_witness :
    (normalizeUsage ⟨none, some 10, none, some 5, none, none, none⟩).inputTokens = 10 ∧
    (normalizeUsage ⟨none, some 10, none, some 5, none, none, none⟩).outputTokens = 5 ∧
    (normalizeUsage ⟨none, some 10, none, some 5, none, none, none⟩).totalTokens = 15 := by
  refine ⟨C5_usage_normalization.2.1 _ 10 rfl rfl,
          C5_usage_normalization.2.2.2.2.1 _ 5 rfl rfl, ?_⟩
  have h := C5_usage_normalization.2.2.2.2.2.2.2.2.2.2.1
    ⟨none, some 10, none, some 5, none, none, none⟩ rfl
  rw [h]
  decide

/-- C7: an empty file selection or a blank prompt is rejected by the
`handleAnalyze` guard before the edge function is invoked (so before any
outbound request is constructed), and server-side an empty selection
produces the no-readable-content rejection before the provider request is
built. -/
theorem C7_request_validation (selectedFiles : List String) (prompt : String)
    (temperature : Option ℚ) (maxTokens : Option Nat)
    (h : selectedFiles = [] ∨ jsTrim prompt = "") :
    handleAnalyze selectedFiles prompt temperature maxTokens = none ∧
    ∀ (storage : String → Option String) (uid : String) (model : Option String),
      serveOutbound storage uid [] prompt temperature maxTokens model =
        Except.error ServeError.NoReadableContent := by
  constructor
  · rcases h with h | h
    · simp [handleAnalyze, h]
    · simp [handleAnalyze, h]
  · intro storage uid model
    simp [serveOutbound, readFileContents]

/-- C7 witness: the theorem applied to the empty selection. -/
theorem C7_witness :
    handleAnalyze [] "hello" none none = none ∧
    serveOutbound storageZero "u" [] "hello" none none none =
      Except.error ServeError.NoReadableContent := by
  have h := C7_request_validation [] "hello" none none (Or.inl rfl)
  exact ⟨h.1, h.2 storageZero "u" none⟩

/-- C8: per-file resolution tries the farm-data path first and only on
failure the certification-requirements path (so farm-data wins name
collisions); a file resolving in neither location is skipped without
failing the request; and the pipeline rejects with `NoReadableContent`
before building any outbound request exactly when no selected file
resolved. -/
theorem C8_file_resolution (storage : String → Option String) (uid : String) :
    (∀ name text, storage (farmPath uid name) = some text →
      resolveFile storage uid name = some text) ∧
    (∀ name, storage (farmPath uid name) = none →
      resolveFile storage uid name = storage (certPath uid name)) ∧
    (∀ name rest, resolveFile storage uid name = none →
      readFileContents storage uid (name :: rest) =
        readFileContents storage uid rest) ∧
    (∀ (selectedFiles : List String) (prompt : String) (temperature : Option ℚ)
       (maxTokens : Option Nat) (model : Option String),
      serveOutbound storage uid selectedFiles prompt temperature maxTokens model =
          Except.error ServeError.NoReadableContent ↔
        ∀ name ∈ selectedFiles, resolveFile storage uid name = none) := by
  refine ⟨?_, ?_, ?_, ?_⟩
  · intro name text h
    simp [resolveFile, h]
  · intro name h
    simp [resolveFile, h]
  · intro name rest h
    simp [readFileContents, h]
  · intro selectedFiles prompt temperature maxTokens model
    by_cases h : readFileContents storage uid selectedFiles = ""
    · rw [serveOutbound]
      simp only [h, if_pos rfl]
      constructor
      · intro _
        exact (readFileContents_eq_empty storage uid selectedFiles).mp h
      · intro _
        rfl
    · rw [serveOutbound]
      simp only [if_neg h]
      constructor
      · intro hc
        exact absurd hc (by simp)
      · intro hall
        exact absurd ((readFileContents_eq_empty storage uid selectedFiles).mpr hall) h

/-- C8 witness: at the concrete storage map, `a.csv` exists in both folders
and the farm-data bytes win; `c.csv` exists only under
certification-requirements and resolves there; a missing file is skipped;
and a selection of only missing files is rejected. -/
theorem C8_witness :
    resolveFile storageZero "u" "a.csv" = some "A" ∧
    resolveFile storageZero "u" "c.csv" = some "C2" ∧
    readFileContents storageZero "u" ["missing.csv", "b.csv"] =
      readFileContents storageZero "u" ["b.csv"] ∧
    (serveOutbound storageZero "u" ["missing.csv"] "p" none none none =
      Except.error ServeError.NoReadableContent) := by
  have h := C8_file_resolution storageZero "u"
  refine ⟨h.1 "a.csv" "A" (by decide), ?_, ?_, ?_⟩
  · rw [h.2.1 "c.csv" (by decide)]
    decide
  · exact h.2.2.1 "missing.csv" ["b.csv"] (by decide)
  · exact (h.2.2.2 ["missing.csv"] "p" none none none).mpr (by decide)

/-- C9: when every selected file resolves, `fileContents` is the
concatenation of one delimiter-prefixed section per file in exactly the
caller-supplied order; concretely `["b.csv", "a.csv"]` places the `b.csv`
section before the `a.csv` section. -/
theorem C9_file_order (storage : String → Option String) (uid : String)
    (selectedFiles : List String)
    (h : ∀ name ∈ selectedFiles, (resolveFile storage uid name).isSome = true) :
    readFileContents storage uid selectedFiles =
      strConcat (selectedFiles.map (fun name =>
        fileSection name ((resolveFile storage uid name).getD ""))) ∧
    (∀ name text, fileSection name text =
      "\n\n=== File: " ++ name ++ " ===\n" ++ text) ∧
    readFileContents storageZero "u" ["b.csv", "a.csv"] =
      fileSection "b.csv" "B" ++ fileSection "a.csv" "A" := by
  refine ⟨?_, fun name text => rfl, by decide⟩
  rw [readFileContents_eq_concat]
  congr 1
  apply List.map_congr_left
  intro name hn
  have hs := h name hn
  cases hres : resolveFile storage uid name with
  | some t => simp [sectionOpt, hres]
  | none => rw [hres] at hs; simp at hs

/-- C9 witness: the theorem applied at the concrete storage map and the
selection `["b.csv", "a.csv"]`. -/
theorem C9_witness :
    readFileContents storageZero "u" ["b.csv", "a.csv"] =
      strConcat (["b.csv", "a.csv"].map (fun name =>
        fileSection name ((resolveFile storageZero "u" name).getD ""))) := by
  exact (C9_file_order storageZero "u" ["b.csv", "a.csv"] (by decide)).1

/-- C10: in the LEGACY branch an explicit caller temperature of 0 (inside
the documented range) is treated as falsy by `temperature || 0.7`, so the
outbound temperature is 0.7, never 0. -/
theorem C10_zero_temperature (model : Option String) (maxTokens : Option Nat)
    (fullPrompt : String) (h : isGPT5OrNewer model = false) :
    (adaptRequest model (some 0) maxTokens fullPrompt).temperature =
      some ((7 : ℚ)/10) ∧
    ((7 : ℚ)/10 ≠ 0) := by
  constructor
  · simp [adaptRequest, h, jsOrRat]
  · norm_num

/-- C10 witness: the theorem applied to the legacy model `gpt-4o`. -/
theorem C10_witness :
    (adaptRequest (some "gpt-4o") (some 0) (some 1500) "p").temperature =
      some ((7 : ℚ)/10) := by
  exact (C10_zero_temperature (some "gpt-4o") (some 1500) "p" (by decide)).1

/-- C1: `detectDownloadableContent` applies its rules in the exact
precedence CSV-heuristic, then fenced code blocks, then bare JSON, first
match wins; `"a,b\n1,2"` matches rule 1 and yields the csv artifact with
the text verbatim (the fenced rules are never consulted); when the earlier
rules do not match, a bare brace/bracket-delimited text on which
`JSON.parse` succeeds yields the json artifact with the trimmed text
verbatim; `"{not valid json"` and rule-free text yield no artifact. -/
theorem C1_classifier_precedence :
    (∀ (text : String) (a : Artifact), csvRule text = some a →
      detectDownloadableContent text = some a) ∧
    (∀ (text : String) (a : Artifact), csvRule text = none →
      codeBlockScan patterns text.data = some a →
      detectDownloadableContent text = some a) ∧
    (∀ text : String, text ≠ "" → csvRule text = none →
      codeBlockScan patterns text.data = none →
      detectDownloadableContent text = bareJsonRule text) ∧
    (∀ text : String, text ≠ "" → csvRule text = none →
      codeBlockScan patterns text.data = none → bareJsonShaped text = true →
      detectDownloadableContent text =
        some ⟨jsTrim text, "analysis_result.json", "json",
              "application/json", "json"⟩) ∧
    detectDownloadableContent "a,b\n1,2" =
      some ⟨"a,b\n1,2", "analysis_result.csv", "csv", "text/csv", "csv"⟩ ∧
    csvRule "a,b\n1,2" =
      some ⟨"a,b\n1,2", "analysis_result.csv", "csv", "text/csv", "csv"⟩ ∧
    detectDownloadableContent "\x7b\"x\":1\x7d" =
      some ⟨"\x7b\"x\":1\x7d", "analysis_result.json", "json",
            "application/json", "json"⟩ ∧
    detectDownloadableContent "\x7bnot valid json" = none ∧
    detectDownloadableContent "plain prose with no structure" = none := by
  refine ⟨?_, ?_, ?_, ?_, by decide, by decide, by decide, by decide, by decide⟩
  · intro text a h
    by_cases ht : text = ""
    · rw [ht] at h
      rw [show csvRule "" = none from by decide] at h
      exact Option.noConfusion h
    · simp [detectDownloadableContent, ht, h]
  · intro text a h1 h2
    by_cases ht : text = ""
    · rw [ht] at h2
      rw [show codeBlockScan patterns ("" : String).data = none from by decide] at h2
      exact Option.noConfusion h2
    · simp [detectDownloadableContent, ht, h1, h2]
  · intro text ht h1 h2
    simp [detectDownloadableContent, ht, h1, h2]
  · intro text ht h1 h2 h3
    simp [detectDownloadableContent, ht, h1, h2, bareJsonRule, h3, jsTrim]

/-- C1 witness: rule 1 firing at a concrete input propagates to the final
classifier result. -/
theorem C1_witness :
    detectDownloadableContent "x,y\n3,4" =
      some ⟨"x,y\n3,4", "analysis_result.csv", "csv", "text/csv", "csv"⟩ := by
  exact C1_classifier_precedence.1 "x,y\n3,4"
    ⟨"x,y\n3,4", "analysis_result.csv", "csv", "text/csv", "csv"⟩ (by decide)

/-- C3 (amended): rule 1 produces the csv artifact (trimmed text verbatim,
filename `analysis_result.csv`) exactly when the CSV-like regex accepts the
trimmed text — i.e. some line other than the last consists of one or more
non-empty comma-separated fields — and the text contains a comma, and the
trimmed text has at least 2 lines whose first line contains a comma.
Lines after the first may lack commas entirely, and conversely a text
whose every line contains a comma can fail the regex (e.g. a first field
that is empty). -/
theorem C3_csv_heuristic (text : String) :
    ((csvRule text).isSome = true ↔
      (csvLikePatternTest (jsTrimL text.data) = true ∧
       strHasSub [','] text.data = true ∧
       (splitCh '\n' (jsTrimL text.data)).length > 1 ∧
       ((splitCh '\n' (jsTrimL text.data)).headD []).contains ',' = true)) ∧
    (∀ a, csvRule text = some a →
      a = ⟨jsTrim text, "analysis_result.csv", "csv", "text/csv", "csv"⟩) ∧
    csvLikePatternTest (jsTrimL text.data) =
      ((splitCh '\n' (jsTrimL text.data)).dropLast).any wellFormedCsvLine := by
  refine ⟨⟨?_, ?_⟩, ?_, rfl⟩
  · intro h
    simp only [csvRule] at h
    split_ifs at h with h1 h2
    · simp only [Bool.and_eq_true, decide_eq_true_eq] at h1 h2
      exact ⟨h1.1, h1.2, h2.1, h2.2⟩
    · simp at h
    · simp at h
  · rintro ⟨g1, g2, g3, g4⟩
    simp only [csvRule]
    rw [if_pos, if_pos]
    · rfl
    · rw [g4]
      simp [g3]
    · rw [g1, g2]
      rfl
  · intro a h
    simp only [csvRule] at h
    split_ifs at h
    injection h with h2
    rw [← h2, jsTrim]

/-- C3 witness: the characterization applied at the concrete CSV input of
the claim. -/
theorem C3_witness : (csvRule "a,b\n1,2").isSome = true := by
  exact (C3_csv_heuristic "a,b\n1,2").1.mpr ⟨by decide, by decide, by decide, by decide⟩

/-- C3 counterexample: the claim's condition ("every line contains at
least one comma ...") disagrees with the code in both directions:
`"a,b\nc"` (second line has no comma) is classified as CSV by the code but
not by the claim, and `",a\nb,c"` (every line has a comma) is rejected by
the code's regex but accepted by the claim's condition. -/
theorem C3_counterexample :
    csvClaimedMatch "a,b\nc" = false ∧
    csvRule "a,b\nc" =
      some ⟨"a,b\nc", "analysis_result.csv", "csv", "text/csv", "csv"⟩ ∧
    csvClaimedMatch ",a\nb,c" = true ∧
    csvRule ",a\nb,c" = none := by decide

/-- C4 (amended): fenced-block language tags are checked in the fixed
order csv, json, xml, txt/text, sql, python, javascript/js, with the
extension/mimeType mapping as listed; the first tag in that order whose
fenced block is present with a non-empty inner capture wins (a matching
block whose capture is empty is skipped), and the artifact content is the
block's inner content trimmed, with filename `analysis_result.<ext>`;
concretely a fenced json block yields the json artifact with exactly the
inner content. -/
theorem C4_fenced_block_order :
    patterns.map (fun p => (p.type, p.extension, p.mimeType)) =
      [("csv", "csv", "text/csv"), ("json", "json", "application/json"),
       ("xml", "xml", "application/xml"), ("txt", "txt", "text/plain"),
       ("sql", "sql", "text/plain"), ("python", "py", "text/plain"),
       ("javascript", "js", "text/plain")] ∧
    (∀ s : List Char, codeBlockScan patterns s = patterns.findSome? (fun p =>
      match findFenceCapture p.tags s with
      | some cap =>
        if cap.isEmpty then none
        else some { content := String.mk (jsTrimL cap),
                    filename := "analysis_result." ++ p.extension,
                    extension := p.extension,
                    mimeType := p.mimeType,
                    type := p.type }
      | none => none)) ∧
    detectDownloadableContent "```json\n\x7b\"a\":1\x7d\n```" =
      some ⟨"\x7b\"a\":1\x7d", "analysis_result.json", "json",
            "application/json", "json"⟩ := by
  exact ⟨by decide, fun s => codeBlockScan_eq_findSome patterns s, by decide⟩

/-- C4 counterexample: a csv fenced block is present (the regex matches)
but its inner capture is empty, so the code skips it and the json block
wins — contradicting "the first tag whose fenced block is present wins". -/
theorem C4_counterexample :
    (findFenceCapture ["csv".data] ("```csv\n\n```\n```json\nx\n```".data)).isSome
      = true ∧
    codeBlockScan patterns ("```csv\n\n```\n```json\nx\n```".data) =
      some ⟨"x", "analysis_result.json", "json", "application/json", "json"⟩ := by
  decide

/-- C6 (amended): when the extracted text is empty while reasoning or
output tokens are nonzero, a non-empty diagnostic replaces it without
raising a failure and without changing the reported statistics; the
message names the configured max-output value whenever reasoning tokens
are nonzero (with only output tokens nonzero, a fixed generic message not
citing the value is used). -/
theorem C6_empty_text_diagnostic (usage : RawUsage) (maxTokens : Option Nat)
    (h : 0 < (normalizeUsage usage).reasoningTokens ∨
         0 < (normalizeUsage usage).outputTokens) :
    (assembleResult "" usage maxTokens).generatedText ≠ "" ∧
    (assembleResult "" usage maxTokens).statistics = normalizeUsage usage ∧
    (∀ t, (assembleResult t usage maxTokens).statistics =
      (assembleResult "" usage maxTokens).statistics) ∧
    (0 < (normalizeUsage usage).reasoningTokens →
      strHasSub (toString (jsOrNat maxTokens 2000)).data
        (assembleResult "" usage maxTokens).generatedText.data = true) := by
  have hg : (assembleResult "" usage maxTokens).generatedText =
      jsTrim (emptyTextSubstitution "" (normalizeUsage usage).reasoningTokens
        (normalizeUsage usage).outputTokens maxTokens) := rfl
  by_cases hrt : 0 < (normalizeUsage usage).reasoningTokens
  · have hsub : emptyTextSubstitution "" (normalizeUsage usage).reasoningTokens
        (normalizeUsage usage).outputTokens maxTokens =
        reasoningDiagnostic (normalizeUsage usage).reasoningTokens
          (jsOrNat maxTokens 2000) := by
      simp [emptyTextSubstitution, hrt]
    refine ⟨?_, rfl, fun t => rfl, fun _ => ?_⟩
    · rw [hg, hsub, jsTrim, reasoningDiagnostic_trim, strMk_data]
      exact reasoningDiagnostic_ne_empty _ _
    · rw [hg, hsub, jsTrim, reasoningDiagnostic_trim, strMk_data]
      exact reasoningDiagnostic_names_cap _ _
  · have hot : 0 < (normalizeUsage usage).outputTokens := h.resolve_left hrt
    have hsub : emptyTextSubstitution "" (normalizeUsage usage).reasoningTokens
        (normalizeUsage usage).outputTokens maxTokens = genericDiagnostic := by
      simp [emptyTextSubstitution, hrt, hot]
    refine ⟨?_, rfl, fun t => rfl, fun hrt2 => absurd hrt2 hrt⟩
    rw [hg, hsub]
    decide

/-- C6 witness: the theorem applied at raw usage reporting 42 reasoning
tokens; the statistics still report 42 and the message cites the cap. -/
theorem C6_witness :
    (assembleResult "" ⟨none, none, none, none, some 42, none, none⟩
      (some 2000)).generatedText ≠ "" ∧
    strHasSub (toString (jsOrNat (some 2000) 2000)).data
      (assembleResult "" ⟨none, none, none, none, some 42, none, none⟩
        (some 2000)).generatedText.data = true ∧
    (assembleResult "" ⟨none, none, none, none, some 42, none, none⟩
      (some 2000)).statistics.reasoningTokens = 42 := by
  have h := C6_empty_text_diagnostic ⟨none, none, none, none, some 42, none, none⟩
    (some 2000) (Or.inl (by decide))
  exact ⟨h.1, h.2.2.2 (by decide), by decide⟩

/-- C6 counterexample: with zero reasoning tokens but nonzero output
tokens the substituted diagnostic does not name the configured max-output
value (2000), contradicting the claim's universal "names the configured
max-output value". -/
theorem C6_counterexample :
    (assembleResult "" ⟨none, none, none, some 5, none, none, none⟩
      (some 2000)).generatedText ≠ "" ∧
    strHasSub (toString (jsOrNat (some 2000) 2000)).data
      (assembleResult "" ⟨none, none, none, some 5, none, none, none⟩
        (some 2000)).generatedText.data = false := by
  decide
